import Mathlib

/-!
Verification of the report renderer and PDF exporter of the Study-Abroad
repository (src/src/app/api/generate-pdf/route.ts).

The TypeScript route is shallowly embedded here:
the HTML template literals are transcribed verbatim as string pieces split at
each interpolation hole (braces, quotes and apostrophes appear escaped inside
Lean string literals, with the same character content); the duck-typed request
body becomes the `AssessmentResult` structure of optional typed fields; JS
falsiness of the `x || d` idiom on strings and numbers becomes `jsStrOr` /
`jsNumOr`; the browser-automation calls (launch, newPage, setContent, pdf) are
external effects whose success or failure is an explicit `BrowserEnv`
parameter, and the handler `POST` returns the HTTP response together with the
browser-lifecycle facts (launched, closed) of the taken path.

JSON numbers are modelled as rationals; `Math.round` is `mathRound`
(round half toward positive infinity, the JS behaviour away from float
edge cases); `String.prototype.toLowerCase` is modelled on ASCII letters,
which covers every string the claims touch.
-/

/-- JS `x || d` on an (optional) string field: `undefined` and the empty
string are falsy, every other string is truthy. Models e.g.
`results.Strengths || 'No strengths identified'` (route.ts line 128). -/
def jsStrOr (x : Option String) (d : String) : String :=
  match x with
  | none => d
  | some s => if s = "" then d else s

/-- JS falsiness of an optional string: `undefined` or `""`.
Models the test `!results['Student Name']` (route.ts line 10). -/
def jsFalsyStr (x : Option String) : Bool :=
  match x with
  | none => true
  | some s => s == ""

/-- JS `x || d` on an (optional) numeric field: `undefined` and `0` are
falsy. Models `results['Overall Readiness Index'] || 0` (route.ts line 126). -/
def jsNumOr (x : Option ℚ) (d : ℚ) : ℚ :=
  match x with
  | none => d
  | some v => if v = 0 then d else v

/-- JS number-to-string conversion as used by template interpolation.
Faithful for integral values (the only values the spec and claims exercise);
a non-integral rational is printed in Lean fraction notation, standing in for
the JS decimal expansion. -/
def jsNumToString (q : ℚ) : String :=
  if q.den = 1 then toString q.num else toString q

/-- JS `x || d` where a truthy number is interpolated into a string and a
falsy one is replaced by the literal `d`. Models
`results['Overall Readiness Index'] || 'N/A'` (route.ts line 71). -/
def jsNumOrStr (x : Option ℚ) (d : String) : String :=
  match x with
  | none => d
  | some v => if v = 0 then d else jsNumToString v

/-- JS `Math.round`: round half toward positive infinity. -/
def mathRound (q : ℚ) : ℤ := ⌊q + 1/2⌋

/-- The characters matched by the JS regexp `\s` (ECMA-262 WhiteSpace and
LineTerminator), as used in `.replace(/\s+/g, '-')` (route.ts lines 83, 107). -/
def isJsWhitespace (c : Char) : Bool :=
  [' ', '\t', '\n', '\x0b', '\x0c', '\r', '\u00A0', '\u1680',
   '\u2000', '\u2001', '\u2002', '\u2003', '\u2004', '\u2005', '\u2006',
   '\u2007', '\u2008', '\u2009', '\u200A', '\u2028', '\u2029', '\u202F',
   '\u205F', '\u3000', '\uFEFF'].contains c

/-- Replace every maximal run of whitespace by a single dash: the effect of
`.replace(/\s+/g, '-')`. The boolean flag records whether the previous
character was inside a whitespace run. -/
def collapseWsAux : Bool → List Char → List Char
  | _, [] => []
  | inRun, c :: cs =>
    if isJsWhitespace c then
      if inRun then collapseWsAux true cs
      else '-' :: collapseWsAux true cs
    else c :: collapseWsAux false cs

/-- `name.replace(/\s+/g, '-').toLowerCase()` (route.ts lines 83 and 107):
whitespace runs become single dashes, then the result is lowercased
(`Char.toLower` covers the ASCII range of `toLowerCase`). -/
def slugify (s : String) : String :=
  String.mk ((collapseWsAux false s.data).map Char.toLower)

/-- The `Scores` object of the request body: the six fixed categories the
template reads (route.ts lines 556-561), each optional. Field names are the
camel-cased source keys, e.g. `financialPlanning` is `'Financial Planning'`. -/
structure Scores where
  financialPlanning : Option ℚ
  academicReadiness : Option ℚ
  careerAlignment : Option ℚ
  personalCultural : Option ℚ
  practicalReadiness : Option ℚ
  supportSystem : Option ℚ
deriving DecidableEq

/-- The `{}` default of `results.Scores || {}` (route.ts line 125): an object
with none of the six keys. -/
def emptyScores : Scores :=
  { financialPlanning := none, academicReadiness := none,
    careerAlignment := none, personalCultural := none,
    practicalReadiness := none, supportSystem := none }

/-- The parsed JSON request body (the `results` value of the route), with the
duck-typed field accesses of the source as optional typed fields:
`studentNameSpaced` is `results['Student Name']`, `studentNameCamel` is
`results.studentName`, `overallIndex` is `results['Overall Readiness Index']`,
`countryFit` is `results['Country Fit (Top 3)']`, the rest are the
same-named dotted accesses. -/
structure AssessmentResult where
  studentNameSpaced : Option String
  studentNameCamel : Option String
  scores : Option Scores
  overallIndex : Option ℚ
  readinessLevel : Option String
  strengths : Option String
  gaps : Option String
  recommendations : Option String
  countryFit : Option (List String)
deriving DecidableEq

/-- `results['Student Name'] || results.studentName || 'Student'`
(route.ts line 124). -/
def studentNameOf (results : AssessmentResult) : String :=
  jsStrOr results.studentNameSpaced (jsStrOr results.studentNameCamel ("Student"))

/-- `results.Scores || {}` (route.ts line 125); a JS object is always truthy,
so a present object is kept and an absent one becomes `{}`. -/
def scoresOf (results : AssessmentResult) : Scores :=
  results.scores.getD emptyScores

/-- `results['Overall Readiness Index'] || 0` (route.ts line 126). -/
def overallIndexOf (results : AssessmentResult) : ℚ :=
  jsNumOr results.overallIndex 0

/-- `results['Readiness Level'] || 'Needs Assessment'` (route.ts line 127). -/
def readinessLevelOf (results : AssessmentResult) : String :=
  jsStrOr results.readinessLevel ("Needs Assessment")

/-- `results.Strengths || 'No strengths identified'` (route.ts line 128). -/
def strengthsOf (results : AssessmentResult) : String :=
  jsStrOr results.strengths ("No strengths identified")

/-- `results.Gaps || 'No gaps identified'` (route.ts line 129). -/
def gapsOf (results : AssessmentResult) : String :=
  jsStrOr results.gaps ("No gaps identified")

/-- `results.Recommendations || 'No recommendations provided'`
(route.ts line 130). -/
def recommendationsOf (results : AssessmentResult) : String :=
  jsStrOr results.recommendations ("No recommendations provided")

/-- `results['Country Fit (Top 3)'] || []` (route.ts line 131); a JS array is
always truthy, so a present array is kept and an absent one becomes `[]`. -/
def countryFitOf (results : AssessmentResult) : List String :=
  results.countryFit.getD []

/-- `results['Student Name'] || results.studentName` as used by the fallback
document and both download filenames (route.ts lines 67, 70, 83, 107). The
handler only reaches these after validation, so at least one field is truthy
there; a falsy camel-case field is modelled as the empty string. -/
def nameField (results : AssessmentResult) : String :=
  jsStrOr results.studentNameSpaced (results.studentNameCamel.getD (""))

/-- `results['Overall Readiness Index'] || 'N/A'` (route.ts line 71). -/
def fallbackIndexStr (results : AssessmentResult) : String :=
  jsNumOrStr results.overallIndex ("N/A")

/-- `results['Readiness Level'] || 'Needs Assessment'` as re-read by the
fallback document (route.ts line 72). -/
def fallbackLevelStr (results : AssessmentResult) : String :=
  jsStrOr results.readinessLevel ("Needs Assessment")

/-- `results.Strengths || 'No strengths identified'` as re-read by the
fallback document (route.ts line 74). -/
def fallbackStrengthsStr (results : AssessmentResult) : String :=
  jsStrOr results.strengths ("No strengths identified")

/-- `results.Recommendations || 'No recommendations provided'` as re-read by
the fallback document (route.ts line 76). -/
def fallbackRecommendationsStr (results : AssessmentResult) : String :=
  jsStrOr results.recommendations ("No recommendations provided")

/-- The `barClass` ternary chain of `generateScoreCard` (route.ts line 136):
`percentage >= 80 ? 'excellent' : percentage >= 60 ? 'good' :
percentage >= 40 ? 'average' : 'weak'`. -/
def barClassOf (percentage : ℤ) : String :=
  if percentage ≥ 80 then "excellent"
  else if percentage ≥ 60 then "good"
  else if percentage ≥ 40 then "average"
  else "weak"

/-!
The template literals of route.ts, transcribed verbatim as constant pieces
split at each `${...}` interpolation hole. `tpl01`-`tpl16` are the outer
document template of `generateHTMLContent` (route.ts lines 195-599), with the
nested country-fit conditional cut out as a hole; `cfTpl1`/`cfTpl2` are the
constant parts of that nested template (lines 579-584); `scTpl1`-`scTpl6` the
score-card template (lines 138-147); `ccTpl1`-`ccTpl5` the country-card
template (lines 167-174); `fbTpl1`-`fbTpl8` the fallback document
(lines 65-79), further split around its literal note text `fallbackNote`
(line 77). In the literals `\x7b`/`\x7d` denote the brace characters and
`\x27` the apostrophe; long pieces are chunked with `++`. -/
def tpl01 : String :=
  "\n    <!DOCTYPE html>\n    <html lang=\"en\">\n    <head>\n        <meta charset=\"UTF-8\">\n        <meta name=\"viewport\" content=\"width=device-width, initial-scale=1.0\">\n        <title>D-Vivid Consultant - Study Abroad Assessment Report</title>\n        <style>\n            @import url(\x27https://fonts.googleapis.com/css2?family=Poppins:wght@300;400;500;600;700;800&display=swap\x27);\n            @import url(\x27https://fonts.googleapis.com/css2?family=Montserrat:wght@400;500;600;700;800&display=swap\x27);\n\n            * \x7b\n                margin: 0;\n                padding: 0;\n                box-sizing: border-box;\n            \x7d\n            \n            body \x7b\n                font-family: \x27Poppins\x27, sans-serif;\n                line-height: 1.4;\n                color: #333;\n                background: #ffffff;\n                margin: 0;\n                padding: 0;\n                font-size: 12px;\n           "
  ++ " \x7d\n            \n            .page \x7b\n                width: 210mm;\n                min-height: 297mm;\n                margin: 0 auto;\n                background: #ffffff;\n                position: relative;\n                padding: 0;\n            \x7d\n            \n            .header \x7b\n                background: linear-gradient(135deg, #003B8C 0%, #5BE49B 100%);\n                color: white;\n                padding: 15px 20px;\n                text-align: center;\n                position: relative;\n                overflow: hidden;\n                height: 80px;\n            \x7d\n            \n            .header-content \x7b\n                display: flex;\n                align-items: center;\n                justify-content: space-between;\n                height: 100%;\n            \x7d\n            \n            .logo-section \x7b\n                display: flex;\n                align-items: center;\n          "
  ++ "      gap: 15px;\n            \x7d\n            \n            .logo \x7b\n                width: 50px;\n                height: 50px;\n                background: white;\n                border-radius: 50%;\n                display: flex;\n                align-items: center;\n                justify-content: center;\n                box-shadow: 0 4px 12px rgba(0,0,0,0.3);\n            \x7d\n            \n            .logo img \x7b\n                max-width: 80%;\n                max-height: 80%;\n            \x7d\n            \n            .company-info h1 \x7b\n                font-family: \x27Montserrat\x27, sans-serif;\n                font-size: 1.8em;\n                font-weight: 800;\n                margin: 0;\n                text-shadow: 1px 1px 2px rgba(0,0,0,0.3);\n            \x7d\n            \n            .company-info p \x7b\n                font-size: 0.9em;\n                opacity: 0.95;\n                margin: 0;\n          "
  ++ "      font-weight: 500;\n            \x7d\n            \n            .report-title \x7b\n                text-align: center;\n                flex: 1;\n            \x7d\n            \n            .report-title h2 \x7b\n                font-size: 1.4em;\n                font-weight: 700;\n                margin: 0;\n            \x7d\n            \n            .report-title p \x7b\n                font-size: 0.8em;\n                opacity: 0.9;\n                margin: 2px 0 0 0;\n            \x7d\n            \n            .footer \x7b\n                position: absolute;\n                bottom: 0;\n                left: 0;\n                right: 0;\n                background: linear-gradient(135deg, #003B8C 0%, #5BE49B 100%);\n                color: white;\n                padding: 8px 20px;\n                text-align: center;\n                font-size: 0.8em;\n                height: 30px;\n                display: flex;\n             "
  ++ "   align-items: center;\n                justify-content: space-between;\n            \x7d\n            \n            .footer-logo \x7b\n                width: 20px;\n                height: 20px;\n                background: white;\n                border-radius: 50%;\n                display: inline-flex;\n                align-items: center;\n                justify-content: center;\n                margin-right: 8px;\n            \x7d\n            \n            .footer-logo img \x7b\n                max-width: 70%;\n                max-height: 70%;\n            \x7d\n            \n            .content \x7b\n                padding: 20px;\n                min-height: calc(297mm - 110px);\n                display: flex;\n                flex-direction: column;\n                gap: 15px;\n            \x7d\n            \n            .student-info \x7b\n                display: grid;\n                grid-template-columns: 1fr 1fr;\n        "
  ++ "        gap: 15px;\n                margin-bottom: 15px;\n            \x7d\n            \n            .info-item \x7b\n                background: linear-gradient(135deg, #f8f9fa, #e9ecef);\n                padding: 12px;\n                border-radius: 8px;\n                border-left: 4px solid #5BE49B;\n            \x7d\n            \n            .info-label \x7b\n                font-weight: 700;\n                color: #666;\n                margin-bottom: 4px;\n                font-size: 0.8em;\n                text-transform: uppercase;\n                letter-spacing: 0.5px;\n            \x7d\n            \n            .info-value \x7b\n                font-size: 1.1em;\n                font-weight: 800;\n                color: #003B8C;\n            \x7d\n            \n            .overall-score \x7b\n                text-align: center;\n                margin: 15px 0;\n                padding: 20px;\n                background: li"
  ++ "near-gradient(45deg, #003B8C, #5BE49B);\n                color: white;\n                border-radius: 10px;\n            \x7d\n            \n            .overall-score h3 \x7b\n                font-size: 2.5em;\n                margin-bottom: 8px;\n                font-weight: 800;\n            \x7d\n            \n            .overall-score p \x7b\n                font-size: 1.2em;\n                opacity: 0.95;\n                font-weight: 600;\n            \x7d\n            \n            .scores-grid \x7b\n                display: grid;\n                grid-template-columns: repeat(3, 1fr);\n                gap: 12px;\n                margin: 15px 0;\n            \x7d\n            \n            .score-card \x7b\n                background: #ffffff;\n                padding: 15px;\n                border-radius: 10px;\n                border: 2px solid #e0e0e0;\n                text-align: center;\n            \x7d\n            \n          "
  ++ "  .score-card h4 \x7b\n                font-size: 1em;\n                color: #003B8C;\n                font-weight: 700;\n                margin-bottom: 8px;\n            \x7d\n            \n            .score-value \x7b\n                font-size: 2em;\n                font-weight: 800;\n                color: #003B8C;\n                margin-bottom: 5px;\n            \x7d\n            \n            .score-bar \x7b\n                height: 8px;\n                background: #e9ecef;\n                border-radius: 4px;\n                overflow: hidden;\n                margin-bottom: 5px;\n            \x7d\n            \n            .score-fill \x7b\n                height: 100%;\n                border-radius: 4px;\n                transition: width 0.3s ease;\n            \x7d\n            \n            .score-fill.excellent \x7b background: linear-gradient(90deg, #22C55E, #16A34A); \x7d\n            .score-fill.good \x7b background: linear-gr"
  ++ "adient(90deg, #3B82F6, #2563EB); \x7d\n            .score-fill.average \x7b background: linear-gradient(90deg, #F59E0B, #D97706); \x7d\n            .score-fill.weak \x7b background: linear-gradient(90deg, #EF4444, #DC2626); \x7d\n            \n            .analysis-section \x7b\n                background: #f8f9fa;\n                padding: 15px;\n                border-radius: 8px;\n                border-left: 4px solid #003B8C;\n                margin: 10px 0;\n            \x7d\n            \n            .analysis-section h4 \x7b\n                font-size: 1.1em;\n                color: #003B8C;\n                margin-bottom: 8px;\n                font-weight: 700;\n            \x7d\n            \n            .analysis-section p \x7b\n                line-height: 1.5;\n                color: #555;\n                font-size: 0.9em;\n            \x7d\n            \n            .country-fit \x7b\n                display: grid;\n                gr"
  ++ "id-template-columns: repeat(3, 1fr);\n                gap: 12px;\n                margin: 15px 0;\n            \x7d\n            \n            .country-card \x7b\n                background: linear-gradient(135deg, #f8f9fa, #e9ecef);\n                padding: 15px;\n                border-radius: 10px;\n                text-align: center;\n                border: 2px solid #e0e0e0;\n            \x7d\n            \n            .country-rank \x7b\n                background: linear-gradient(45deg, #003B8C, #5BE49B);\n                color: white;\n                width: 30px;\n                height: 30px;\n                border-radius: 50%;\n                display: flex;\n                align-items: center;\n                justify-content: center;\n                margin: 0 auto 8px auto;\n                font-weight: 800;\n                font-size: 0.9em;\n            \x7d\n            \n            .country-flag \x7b\n        "
  ++ "        font-size: 1.5em;\n                margin-bottom: 5px;\n            \x7d\n            \n            .country-name \x7b\n                font-size: 1em;\n                font-weight: 700;\n                color: #003B8C;\n                margin-bottom: 5px;\n            \x7d\n            \n            .country-score \x7b\n                background: linear-gradient(45deg, #5BE49B, #4ade80);\n                color: white;\n                padding: 4px 8px;\n                border-radius: 6px;\n                font-weight: 700;\n                font-size: 0.8em;\n            \x7d\n            \n            @media print \x7b\n                body \x7b -webkit-print-color-adjust: exact; print-color-adjust: exact; \x7d\n                .page \x7b box-shadow: none; border: none; \x7d\n                .header, .footer \x7b background-color: #003B8C !important; \x7d\n            \x7d\n        </style>\n    </head>\n    <body>\n        <div class=\"page\">\n"
  ++ "            <div class=\"header\">\n                <div class=\"header-content\">\n                    <div class=\"logo-section\">\n                        <div class=\"logo\">\n                            <img src=\"https://iili.io/Jp021xX.png\" alt=\"D-Vivid Logo\"/>\n                        </div>\n                        <div class=\"company-info\">\n                            <h1>D-Vivid Consultant</h1>\n                            <p>Strategic Counselling Circle</p>\n                        </div>\n                    </div>\n                    <div class=\"report-title\">\n                        <h2>Study Abroad Assessment Report</h2>\n                        <p>Comprehensive Readiness Index (CRI)</p>\n                    </div>\n                </div>\n            </div>\n            \n            <div class=\"content\">\n                <div class=\"student-info\">\n                    <div class=\"info-item\">\n   "
  ++ "                     <div class=\"info-label\">Student Name</div>\n                        <div class=\"info-value\">"

def tpl02 : String :=
  "</div>\n                    </div>\n                    <div class=\"info-item\">\n                        <div class=\"info-label\">Assessment Date</div>\n                        <div class=\"info-value\">"

def tpl03 : String :=
  "</div>\n                    </div>\n                </div>\n                \n                <div class=\"overall-score\">\n                    <h3>"

def tpl04 : String :=
  "%</h3>\n                    <p>Overall Readiness Index: "

def tpl05 : String :=
  "</p>\n                </div>\n                \n                <div class=\"scores-grid\">\n                    "

def tpl06 : String :=
  "\n                    "

def tpl07 : String :=
  "\n                    "

def tpl08 : String :=
  "\n                    "

def tpl09 : String :=
  "\n                    "

def tpl10 : String :=
  "\n                    "

def tpl11 : String :=
  "\n                </div>\n                \n                <div class=\"analysis-section\">\n                    <h4>💪 Key Strengths</h4>\n                    <p>"

def tpl12 : String :=
  "</p>\n                </div>\n                \n                <div class=\"analysis-section\">\n                    <h4>⚠️ Areas for Development</h4>\n                    <p>"

def tpl13 : String :=
  "</p>\n                </div>\n                \n                <div class=\"analysis-section\">\n                    <h4>🎯 Strategic Recommendations</h4>\n                    <p>"

def tpl14 : String :=
  "</p>\n                </div>\n                \n                "

def tpl15 : String :=
  "\n            </div>\n            \n            <div class=\"footer\">\n                <div style=\"display: flex; align-items: center;\">\n                    <div class=\"footer-logo\">\n                        <img src=\"https://iili.io/Jp021xX.png\" alt=\"D-Vivid Logo\"/>\n                    </div>\n                    <span>D-Vivid Consultant - Strategic Counselling Circle</span>\n                </div>\n                <div>Report Generated: "

def tpl16 : String :=
  "</div>\n            </div>\n        </div>\n    </body>\n    </html>\n  "

def cfTpl1 : String :=
  "\n                <div class=\"country-fit\">\n                    <h4 style=\"grid-column: 1/-1; text-align: center; color: #003B8C; margin-bottom: 10px;\">🌍 Recommended Study Destinations</h4>\n                    "

def cfTpl2 : String :=
  "\n                </div>\n                "

def scTpl1 : String :=
  "\n      <div class=\"score-card\">\n        <h4>"

def scTpl2 : String :=
  "</h4>\n        <div class=\"score-value\">"

def scTpl3 : String :=
  "%</div>\n        <div class=\"score-bar\">\n          <div class=\"score-fill "

def scTpl4 : String :=
  "\" style=\"width: "

def scTpl5 : String :=
  "%\"></div>\n        </div>\n        <div style=\"font-size: 0.7em; color: #666; margin-top: 4px;\">Weight: "

def scTpl6 : String :=
  "</div>\n      </div>\n    "

def ccTpl1 : String :=
  "\n      <div class=\"country-card\">\n        <div class=\"country-rank\">#"

def ccTpl2 : String :=
  "</div>\n        <div class=\"country-flag\">"

def ccTpl3 : String :=
  "</div>\n        <div class=\"country-name\">"

def ccTpl4 : String :=
  "</div>\n        <div class=\"country-score\">"

def ccTpl5 : String :=
  "% Match</div>\n      </div>\n    "

def fallbackNote : String :=
  "Note: This is a simplified report. For detailed analysis, please retry PDF generation."

def fbTpl1 : String :=
  "\n        <html>\n          <head><title>Study Abroad Report - "

def fbTpl2 : String :=
  "</title></head>\n          <body style=\"font-family: Arial, sans-serif; padding: 20px;\">\n            <h1>Study Abroad Readiness Report</h1>\n            <h2>Student: "

def fbTpl3 : String :=
  "</h2>\n            <p><strong>Overall Readiness Index:</strong> "

def fbTpl4 : String :=
  "</p>\n            <p><strong>Readiness Level:</strong> "

def fbTpl5 : String :=
  "</p>\n            <h3>Strengths:</h3>\n            <p>"

def fbTpl6 : String :=
  "</p>\n            <h3>Recommendations:</h3>\n            <p>"

def fbTpl7 : String :=
  "</p>\n            <p><em>"

def fbTpl8 : String :=
  "</em></p>\n          </body>\n        </html>\n      "

/-- The `generateScoreCard` helper (route.ts lines 134-148): rounds the score,
picks the bar colour class from the rounded percentage, and interpolates
label, percentage (twice: the displayed value and the bar width), class and
weight into the score-card template. -/
def generateScoreCard (label : String) (score : ℚ) (weight : String) : String :=
  let percentage := mathRound score
  let barClass := barClassOf percentage
  scTpl1 ++ label ++ scTpl2 ++ toString percentage ++ scTpl3 ++ barClass
    ++ scTpl4 ++ toString percentage ++ scTpl5 ++ weight ++ scTpl6

/-- The fixed `countryInfo` country-to-flag table of `generateCountryCard`
(route.ts lines 152-163). -/
def countryInfo : List (String × String) :=
  [("Singapore", "🇸🇬"), ("Ireland", "🇮🇪"), ("Netherlands", "🇳🇱"),
   ("Canada", "🇨🇦"), ("Australia", "🇦🇺"), ("United Kingdom", "🇬🇧"),
   ("Germany", "🇩🇪"), ("United States", "🇺🇸"), ("India", "🇮🇳"),
   ("United Arab Emirates", "🇦🇪")]

/-- The `generateCountryCard` helper (route.ts lines 151-175):
`countryInfo[country] || { flag: '🌍' }` becomes a list lookup with the globe
default, the rank is `index + 1`, and the match percentage is
`Math.round(100 - (index * 15))`. -/
def generateCountryCard (country : String) (index : ℕ) : String :=
  let info := (List.lookup country countryInfo).getD ("🌍")
  ccTpl1 ++ toString (index + 1) ++ ccTpl2 ++ info ++ ccTpl3 ++ country
    ++ ccTpl4 ++ toString (mathRound ((100 : ℚ) - (index : ℚ) * 15)) ++ ccTpl5

/-- The nested conditional
`${countryFit.length > 0 ? `...${countryFit.map(...).join('')}...` : ''}`
(route.ts lines 579-584). -/
def countryFitBlock (countryFit : List String) : String :=
  if countryFit.length > 0 then
    cfTpl1
      ++ String.join (countryFit.mapIdx (fun index country =>
          generateCountryCard country index))
      ++ cfTpl2
  else ""

/-- One conditional entry of the scores grid (route.ts lines 556-561):
`${scores[key] ? generateScoreCard(label, scores[key], weight) : ''}` — an
absent or zero (JS-falsy) score renders the empty string. -/
def scoreCardIf (score : Option ℚ) (label : String) (weight : String) : String :=
  match score with
  | none => ""
  | some v => if v = 0 then "" else generateScoreCard label v weight

/-- The `generateHTMLContent` report builder (route.ts lines 116-600): the
outer template with every interpolation filled in. The render date
(`currentDate`, route.ts lines 117-121, read from the clock) is an explicit
parameter of the embedding. -/
def generateHTMLContent (results : AssessmentResult) (currentDate : String) : String :=
  tpl01 ++ studentNameOf results ++ tpl02 ++ currentDate ++ tpl03
    ++ jsNumToString (overallIndexOf results) ++ tpl04 ++ readinessLevelOf results ++ tpl05
    ++ scoreCardIf (scoresOf results).financialPlanning ("Financial Planning") ("25%") ++ tpl06
    ++ scoreCardIf (scoresOf results).academicReadiness ("Academic Readiness") ("20%") ++ tpl07
    ++ scoreCardIf (scoresOf results).careerAlignment ("Career Alignment") ("20%") ++ tpl08
    ++ scoreCardIf (scoresOf results).personalCultural ("Personal & Cultural") ("15%") ++ tpl09
    ++ scoreCardIf (scoresOf results).practicalReadiness ("Practical Readiness") ("10%") ++ tpl10
    ++ scoreCardIf (scoresOf results).supportSystem ("Support System") ("10%") ++ tpl11
    ++ strengthsOf results ++ tpl12 ++ gapsOf results ++ tpl13
    ++ recommendationsOf results ++ tpl14
    ++ countryFitBlock (countryFitOf results) ++ tpl15 ++ currentDate ++ tpl16

/-- The fallback HTML document built when `page.pdf()` throws
(route.ts lines 65-79). -/
def fallbackHtml (results : AssessmentResult) : String :=
  fbTpl1 ++ nameField results ++ fbTpl2 ++ nameField results ++ fbTpl3
    ++ fallbackIndexStr results ++ fbTpl4 ++ fallbackLevelStr results ++ fbTpl5
    ++ fallbackStrengthsStr results ++ fbTpl6 ++ fallbackRecommendationsStr results
    ++ fbTpl7 ++ fallbackNote ++ fbTpl8

/-- The body of an HTTP response of the route: a JSON error object
`{ error: msg }`, an HTML document, or a binary PDF buffer. -/
inductive RespBody where
  | jsonError (msg : String)
  | htmlBody (doc : String)
  | pdfBody (buf : List ℕ)
deriving DecidableEq

/-- An HTTP response as the route builds them: status code, the headers the
route sets, and the body. -/
structure HttpResponse where
  status : ℕ
  contentType : Option String
  contentDisposition : Option String
  contentLength : Option String
  body : RespBody
deriving DecidableEq

/-- Outcomes of the external browser-automation calls of one request:
whether `puppeteer.launch` succeeds, whether `browser.newPage` succeeds,
whether `page.setContent` succeeds (content-load step, route.ts line 37), and
the outcome of `page.pdf` (route.ts line 49): `none` when it throws,
otherwise the produced byte buffer. -/
structure BrowserEnv where
  launchOk : Bool
  newPageOk : Bool
  setContentOk : Bool
  pdfResult : Option (List ℕ)
deriving DecidableEq

/-- What one run of the handler produced: the HTTP response, whether a
browser instance had been launched on the taken path, and whether it was
closed again before the response was returned. -/
structure PostResult where
  response : HttpResponse
  browserLaunched : Bool
  browserClosed : Bool
deriving DecidableEq

/-- `NextResponse.json({ error: msg }, { status })` (route.ts lines 12, 94,
112): a JSON error body with the given status. -/
def jsonResponse (msg : String) (status : ℕ) : HttpResponse :=
  { status := status, contentType := some ("application/json"),
    contentDisposition := none, contentLength := none,
    body := RespBody.jsonError msg }

/-- The fallback response of the PDF-failure path (route.ts lines 65-85):
status 200 (the `NextResponse` default), HTML content type, and an attachment
filename built from the slugified student name. -/
def fallbackResponse (results : AssessmentResult) : HttpResponse :=
  { status := 200, contentType := some ("text/html"),
    contentDisposition := some ("attachment; filename=\"study-abroad-report-"
      ++ slugify (nameField results) ++ ".html\""),
    contentLength := none,
    body := RespBody.htmlBody (fallbackHtml results) }

/-- The successful PDF response (route.ts lines 102-109). -/
def pdfResponse (results : AssessmentResult) (pdfBuffer : List ℕ) : HttpResponse :=
  { status := 200, contentType := some ("application/pdf"),
    contentDisposition := some ("attachment; filename=\"psychometric-report-"
      ++ slugify (nameField results) ++ ".pdf\""),
    contentLength := some (toString pdfBuffer.length),
    body := RespBody.pdfBody pdfBuffer }

/-- The validation test `!results['Student Name'] && !results.studentName`
(route.ts line 10). -/
def missingStudentName (results : AssessmentResult) : Bool :=
  jsFalsyStr results.studentNameSpaced && jsFalsyStr results.studentNameCamel

/-- The handler body after validation has passed (route.ts lines 16-109),
with each external failure routed to the `catch` that the source reaches:
a `launch`, `newPage` or `setContent` exception propagates to the top-level
catch (line 110), which answers 500 *without closing the browser*; a `pdf`
exception is caught locally (line 60), closes the browser and answers with
the fallback document; an empty buffer closes the browser and answers 500
(lines 91-95); otherwise the browser is closed and the PDF returned. -/
def handleValidRequest (results : AssessmentResult) (env : BrowserEnv)
    (currentDate : String) : PostResult :=
  let _htmlContent := generateHTMLContent results currentDate
  if !env.launchOk then
    { response := jsonResponse ("Failed to generate PDF") 500,
      browserLaunched := false, browserClosed := false }
  else if !env.newPageOk then
    { response := jsonResponse ("Failed to generate PDF") 500,
      browserLaunched := true, browserClosed := false }
  else if !env.setContentOk then
    { response := jsonResponse ("Failed to generate PDF") 500,
      browserLaunched := true, browserClosed := false }
  else
    match env.pdfResult with
    | none =>
      { response := fallbackResponse results,
        browserLaunched := true, browserClosed := true }
    | some pdfBuffer =>
      if pdfBuffer.length = 0 then
        { response := jsonResponse ("PDF generation failed - empty buffer") 500,
          browserLaunched := true, browserClosed := true }
      else
        { response := pdfResponse results pdfBuffer,
          browserLaunched := true, browserClosed := true }

/-- The `POST` route handler (route.ts lines 4-114): validate the student
name, then run the render-and-export pipeline. -/
def POST (results : AssessmentResult) (env : BrowserEnv)
    (currentDate : String) : PostResult :=
  if missingStudentName results then
    { response := jsonResponse ("Missing student name") 400,
      browserLaunched := false, browserClosed := false }
  else handleValidRequest results env currentDate

/-- The six fixed score categories of the scores grid
(route.ts lines 556-561). -/
inductive ScoreCategory where
  | financialPlanning
  | academicReadiness
  | careerAlignment
  | personalCultural
  | practicalReadiness
  | supportSystem
deriving DecidableEq

/-- The source key and card label of each category. -/
def catLabel : ScoreCategory → String
  | .financialPlanning => "Financial Planning"
  | .academicReadiness => "Academic Readiness"
  | .careerAlignment => "Career Alignment"
  | .personalCultural => "Personal & Cultural"
  | .practicalReadiness => "Practical Readiness"
  | .supportSystem => "Support System"

/-- The fixed weight string passed for each category
(route.ts lines 556-561). -/
def catWeight : ScoreCategory → String
  | .financialPlanning => "25%"
  | .academicReadiness => "20%"
  | .careerAlignment => "20%"
  | .personalCultural => "15%"
  | .practicalReadiness => "10%"
  | .supportSystem => "10%"

/-- Field access `scores[key]` for a category. -/
def getScore (s : Scores) : ScoreCategory → Option ℚ
  | .financialPlanning => s.financialPlanning
  | .academicReadiness => s.academicReadiness
  | .careerAlignment => s.careerAlignment
  | .personalCultural => s.personalCultural
  | .practicalReadiness => s.practicalReadiness
  | .supportSystem => s.supportSystem

/-- Remove one category from a scores object (make the key absent). -/
def setScoreNone (s : Scores) : ScoreCategory → Scores
  | .financialPlanning => { s with financialPlanning := none }
  | .academicReadiness => { s with academicReadiness := none }
  | .careerAlignment => { s with careerAlignment := none }
  | .personalCultural => { s with personalCultural := none }
  | .practicalReadiness => { s with practicalReadiness := none }
  | .supportSystem => { s with supportSystem := none }

/-- String `s` occurs as a (contiguous) substring of `t`. -/
def occursIn (s t : String) : Prop :=
  ∃ a b : String, t = a ++ s ++ b

/-- Number of occurrences of the character `W` in a string. `W` is chosen as
a marker because in the whole outer document template it occurs only inside
the score-card template (in its `Weight:` label, route.ts line 145). -/
def wCount (s : String) : ℕ :=
  s.data.count 'W'

/-- The part of the full report before the first embedded render date
(the assessment-date slot, route.ts line 546). -/
def htmlDatePre (results : AssessmentResult) : String :=
  tpl01 ++ studentNameOf results ++ tpl02

/-- The part of the full report between the two embedded render dates
(assessment date, route.ts line 546, and footer date, line 594). -/
def htmlDateMid (results : AssessmentResult) : String :=
  tpl03 ++ jsNumToString (overallIndexOf results) ++ tpl04 ++ readinessLevelOf results ++ tpl05
    ++ scoreCardIf (scoresOf results).financialPlanning ("Financial Planning") ("25%") ++ tpl06
    ++ scoreCardIf (scoresOf results).academicReadiness ("Academic Readiness") ("20%") ++ tpl07
    ++ scoreCardIf (scoresOf results).careerAlignment ("Career Alignment") ("20%") ++ tpl08
    ++ scoreCardIf (scoresOf results).personalCultural ("Personal & Cultural") ("15%") ++ tpl09
    ++ scoreCardIf (scoresOf results).practicalReadiness ("Practical Readiness") ("10%") ++ tpl10
    ++ scoreCardIf (scoresOf results).supportSystem ("Support System") ("10%") ++ tpl11
    ++ strengthsOf results ++ tpl12 ++ gapsOf results ++ tpl13
    ++ recommendationsOf results ++ tpl14
    ++ countryFitBlock (countryFitOf results) ++ tpl15

/-- The part of the full report before the overall-index value
(the `<h3>` slot of the overall-score block, route.ts line 551). -/
def htmlIdxPre (results : AssessmentResult) (currentDate : String) : String :=
  tpl01 ++ studentNameOf results ++ tpl02 ++ currentDate ++ tpl03

/-- The part of the full report after the overall-index value. -/
def htmlIdxPost (results : AssessmentResult) (currentDate : String) : String :=
  tpl04 ++ readinessLevelOf results ++ tpl05
    ++ scoreCardIf (scoresOf results).financialPlanning ("Financial Planning") ("25%") ++ tpl06
    ++ scoreCardIf (scoresOf results).academicReadiness ("Academic Readiness") ("20%") ++ tpl07
    ++ scoreCardIf (scoresOf results).careerAlignment ("Career Alignment") ("20%") ++ tpl08
    ++ scoreCardIf (scoresOf results).personalCultural ("Personal & Cultural") ("15%") ++ tpl09
    ++ scoreCardIf (scoresOf results).practicalReadiness ("Practical Readiness") ("10%") ++ tpl10
    ++ scoreCardIf (scoresOf results).supportSystem ("Support System") ("10%") ++ tpl11
    ++ strengthsOf results ++ tpl12 ++ gapsOf results ++ tpl13
    ++ recommendationsOf results ++ tpl14
    ++ countryFitBlock (countryFitOf results) ++ tpl15 ++ currentDate ++ tpl16

/-- The part of the fallback document before the overall-index slot
(route.ts line 71). -/
def fbIdxPre (results : AssessmentResult) : String :=
  fbTpl1 ++ nameField results ++ fbTpl2 ++ nameField results ++ fbTpl3

/-- The part of the fallback document after the overall-index slot. -/
def fbIdxPost (results : AssessmentResult) : String :=
  fbTpl4 ++ fallbackLevelStr results ++ fbTpl5
    ++ fallbackStrengthsStr results ++ fbTpl6 ++ fallbackRecommendationsStr results
    ++ fbTpl7 ++ fallbackNote ++ fbTpl8

/-- A request body with a valid student name and nothing else. -/
def janeDoe : AssessmentResult :=
  { studentNameSpaced := some ("Jane Doe"), studentNameCamel := none,
    scores := none, overallIndex := none, readinessLevel := none,
    strengths := none, gaps := none, recommendations := none,
    countryFit := none }

/-- A request body with both student-name fields absent. -/
def noNameBody : AssessmentResult :=
  { studentNameSpaced := none, studentNameCamel := none,
    scores := none, overallIndex := none, readinessLevel := none,
    strengths := none, gaps := none, recommendations := none,
    countryFit := none }

/-- A request body whose scores object maps `'Financial Planning'` to the
numeric value 0 (and nothing else). -/
def zeroScoreBody : AssessmentResult :=
  { studentNameSpaced := some ("x"), studentNameCamel := none,
    scores := some
      { financialPlanning := some 0, academicReadiness := none,
        careerAlignment := none, personalCultural := none,
        practicalReadiness := none, supportSystem := none },
    overallIndex := none, readinessLevel := none,
    strengths := none, gaps := none, recommendations := none,
    countryFit := none }

/-- A browser environment where every step succeeds and `page.pdf` returns a
one-byte buffer. -/
def envPdfOk : BrowserEnv :=
  { launchOk := true, newPageOk := true, setContentOk := true,
    pdfResult := some [37] }

/-- A browser environment where `page.pdf` throws (the PDF-failure path). -/
def envPdfFail : BrowserEnv :=
  { launchOk := true, newPageOk := true, setContentOk := true,
    pdfResult := none }

/-- A browser environment where `page.setContent` fails after the browser was
launched (the content-load-failure path). -/
def envContentFail : BrowserEnv :=
  { launchOk := true, newPageOk := true, setContentOk := false,
    pdfResult := none }

/-- A request-body string field is present with a non-empty value
(JS-truthy for strings). -/
def presentNonEmpty (x : Option String) : Prop :=
  ∃ s, x = some s ∧ s ≠ ""

/-- One entry of the scores grid, by category. -/
def cardOf (results : AssessmentResult) (c : ScoreCategory) : String :=
  scoreCardIf (getScore (scoresOf results) c) (catLabel c) (catWeight c)

/-- The part of the full report before the scores grid. -/
def htmlHead (results : AssessmentResult) (currentDate : String) : String :=
  tpl01 ++ studentNameOf results ++ tpl02 ++ currentDate ++ tpl03
    ++ jsNumToString (overallIndexOf results) ++ tpl04 ++ readinessLevelOf results ++ tpl05

/-- The part of the full report after the scores grid. -/
def htmlTail (results : AssessmentResult) (currentDate : String) : String :=
  tpl11 ++ strengthsOf results ++ tpl12 ++ gapsOf results ++ tpl13
    ++ recommendationsOf results ++ tpl14
    ++ countryFitBlock (countryFitOf results) ++ tpl15 ++ currentDate ++ tpl16

/-- The part of the full report strictly before a given category's grid
entry. -/
def gridBefore (results : AssessmentResult) (currentDate : String) : ScoreCategory → String
  | .financialPlanning => htmlHead results currentDate
  | .academicReadiness => htmlHead results currentDate
      ++ cardOf results .financialPlanning ++ tpl06
  | .careerAlignment => htmlHead results currentDate
      ++ cardOf results .financialPlanning ++ tpl06
      ++ cardOf results .academicReadiness ++ tpl07
  | .personalCultural => htmlHead results currentDate
      ++ cardOf results .financialPlanning ++ tpl06
      ++ cardOf results .academicReadiness ++ tpl07
      ++ cardOf results .careerAlignment ++ tpl08
  | .practicalReadiness => htmlHead results currentDate
      ++ cardOf results .financialPlanning ++ tpl06
      ++ cardOf results .academicReadiness ++ tpl07
      ++ cardOf results .careerAlignment ++ tpl08
      ++ cardOf results .personalCultural ++ tpl09
  | .supportSystem => htmlHead results currentDate
      ++ cardOf results .financialPlanning ++ tpl06
      ++ cardOf results .academicReadiness ++ tpl07
      ++ cardOf results .careerAlignment ++ tpl08
      ++ cardOf results .personalCultural ++ tpl09
      ++ cardOf results .practicalReadiness ++ tpl10

/-- The part of the full report strictly after a given category's grid
entry. -/
def gridAfter (results : AssessmentResult) (currentDate : String) : ScoreCategory → String
  | .financialPlanning => tpl06
      ++ cardOf results .academicReadiness ++ tpl07
      ++ cardOf results .careerAlignment ++ tpl08
      ++ cardOf results .personalCultural ++ tpl09
      ++ cardOf results .practicalReadiness ++ tpl10
      ++ cardOf results .supportSystem ++ htmlTail results currentDate
  | .academicReadiness => tpl07
      ++ cardOf results .careerAlignment ++ tpl08
      ++ cardOf results .personalCultural ++ tpl09
      ++ cardOf results .practicalReadiness ++ tpl10
      ++ cardOf results .supportSystem ++ htmlTail results currentDate
  | .careerAlignment => tpl08
      ++ cardOf results .personalCultural ++ tpl09
      ++ cardOf results .practicalReadiness ++ tpl10
      ++ cardOf results .supportSystem ++ htmlTail results currentDate
  | .personalCultural => tpl09
      ++ cardOf results .practicalReadiness ++ tpl10
      ++ cardOf results .supportSystem ++ htmlTail results currentDate
  | .practicalReadiness => tpl10
      ++ cardOf results .supportSystem ++ htmlTail results currentDate
  | .supportSystem => htmlTail results currentDate

/-- A request body whose scores object maps `'Financial Planning'` to 85. -/
def fpBody : AssessmentResult :=
  { studentNameSpaced := some ("x"), studentNameCamel := none,
    scores := some
      { financialPlanning := some 85, academicReadiness := none,
        careerAlignment := none, personalCultural := none,
        practicalReadiness := none, supportSystem := none },
    overallIndex := none, readinessLevel := none,
    strengths := none, gaps := none, recommendations := none,
    countryFit := none }

/-- The scores grid of the full report: the six conditional entries with the
constant whitespace between them (route.ts lines 556-561). -/
def scoresGridStr (results : AssessmentResult) : String :=
  cardOf results .financialPlanning ++ tpl06
    ++ cardOf results .academicReadiness ++ tpl07
    ++ cardOf results .careerAlignment ++ tpl08
    ++ cardOf results .personalCultural ++ tpl09
    ++ cardOf results .practicalReadiness ++ tpl10
    ++ cardOf results .supportSystem

theorem wCount_append (a b : String) : wCount (a ++ b) = wCount a + wCount b := by
  simp [wCount, String.data_append, List.count_append]

theorem occursIn_wCount_le {s t : String} (h : occursIn s t) : wCount s ≤ wCount t := by
  obtain ⟨a, b, rfl⟩ := h
  rw [wCount_append, wCount_append]
  omega

theorem mathRound_intCast (n : ℤ) : mathRound (n : ℚ) = n := by
  unfold mathRound
  rw [add_comm, Int.floor_add_int]
  norm_num [Int.floor_eq_zero_iff]

/-- The report factors, at every category, as the part before that
category's grid entry, the entry, and the part after it. -/
theorem generateHTMLContent_grid (results : AssessmentResult) (currentDate : String)
    (c : ScoreCategory) :
    generateHTMLContent results currentDate =
      gridBefore results currentDate c ++ cardOf results c
        ++ gridAfter results currentDate c := by
  cases c <;>
    simp only [generateHTMLContent, gridBefore, gridAfter, cardOf, htmlHead, htmlTail,
      getScore, catLabel, catWeight, String.append_assoc]

/-- C1: a parsed body in which neither accepted student-name field is present
and non-empty is answered with HTTP 400 and the literal error body
`{ error: 'Missing student name' }`; a body in which at least one of the two
fields is present and non-empty passes validation and is handed unchanged to
the rest of the handler. -/
theorem c1_validation (results : AssessmentResult) (env : BrowserEnv)
    (currentDate : String) :
    (missingStudentName results = true ↔
      ¬ (presentNonEmpty results.studentNameSpaced ∨
         presentNonEmpty results.studentNameCamel)) ∧
    (missingStudentName results = true →
      POST results env currentDate =
        { response := jsonResponse ("Missing student name") 400,
          browserLaunched := false, browserClosed := false }) ∧
    (missingStudentName results = false →
      POST results env currentDate = handleValidRequest results env currentDate) := by
  refine ⟨?_, fun h => ?_, fun h => ?_⟩
  · obtain ⟨sn1, sn2, sc, oi, rl, st, gp, rc, cf⟩ := results
    rcases sn1 with _ | s <;> rcases sn2 with _ | t <;>
      simp [missingStudentName, jsFalsyStr, presentNonEmpty]
  · simp [POST, h]
  · simp [POST, h]

/-- Witness for C1 at concrete inputs: a body with both name fields absent is
rejected with the 400 error, and a body with a name is passed through. -/
theorem c1_validation_witness :
    POST noNameBody envPdfOk ("d") =
      { response := jsonResponse ("Missing student name") 400,
        browserLaunched := false, browserClosed := false } ∧
    POST janeDoe envPdfOk ("d") = handleValidRequest janeDoe envPdfOk ("d") :=
  ⟨(c1_validation noNameBody envPdfOk ("d")).2.1 rfl,
   (c1_validation janeDoe envPdfOk ("d")).2.2 rfl⟩

set_option maxRecDepth 400000 in
/-- C2 counterexample: with `Scores['Financial Planning'] = 0` the claim
fails — the category is present in the mapping, yet the report contains no
score card for it (a value of 0 is JS-falsy, so the conditional renders the
empty string). Non-containment is proved by counting the marker character
`W`, which occurs in every score card (in `Weight:`) but nowhere in the
rendered document. -/
theorem c2_counterexample :
    getScore (scoresOf zeroScoreBody) ScoreCategory.financialPlanning = some 0 ∧
    ¬ occursIn (generateScoreCard ("Financial Planning") 0 ("25%"))
        (generateHTMLContent zeroScoreBody ("January 1, 2026")) := by
  refine ⟨rfl, fun h => ?_⟩
  have hle := occursIn_wCount_le h
  have hz : mathRound 0 = 0 := by
    rw [show (0 : ℚ) = ((0 : ℤ) : ℚ) by norm_num]
    exact mathRound_intCast 0
  have hcard : wCount (generateScoreCard ("Financial Planning") 0 ("25%")) = 1 := by
    simp only [generateScoreCard, hz, wCount_append]
    decide
  have hdoc : wCount (generateHTMLContent zeroScoreBody ("January 1, 2026")) = 0 := by
    simp only [generateHTMLContent, tpl01, tpl02, tpl03, tpl04, tpl05, tpl06, tpl07, tpl08,
      tpl09, tpl10, tpl11, tpl12, tpl13, tpl14, tpl15, tpl16, wCount_append]
    decide
  rw [hcard, hdoc] at hle
  exact absurd hle (by norm_num)

/-- C2 as amended: a category present in the scores mapping with a nonzero
value yields a labelled score card in the report; a category absent from the
mapping, or present with value 0 (JS-falsy), contributes no card — the
report is identical to the one for the input with the category absent. -/
theorem c2_score_card_rendering (results : AssessmentResult) (currentDate : String)
    (c : ScoreCategory) :
    (∀ v : ℚ, getScore (scoresOf results) c = some v → v ≠ 0 →
      occursIn (generateScoreCard (catLabel c) v (catWeight c))
        (generateHTMLContent results currentDate)) ∧
    ((getScore (scoresOf results) c = none ∨ getScore (scoresOf results) c = some 0) →
      generateHTMLContent results currentDate =
        generateHTMLContent
          { results with scores := some (setScoreNone (scoresOf results) c) }
          currentDate) := by
  constructor
  · intro v hv hv0
    refine ⟨gridBefore results currentDate c, gridAfter results currentDate c, ?_⟩
    rw [generateHTMLContent_grid results currentDate c]
    have : cardOf results c = generateScoreCard (catLabel c) v (catWeight c) := by
      simp [cardOf, scoreCardIf, hv, hv0]
    rw [this]
  · intro h
    cases c <;> rcases h with h | h <;>
      simp only [getScore, scoresOf] at h <;>
      simp [generateHTMLContent, scoresOf, setScoreNone, scoreCardIf, h, studentNameOf,
        overallIndexOf, readinessLevelOf, strengthsOf, gapsOf, recommendationsOf,
        countryFitOf]

/-- Witness for C2's amended theorem at concrete inputs: a nonzero Financial
Planning score of 85 yields a card in the report, and a zero score renders
identically to an absent one. -/
theorem c2_score_card_rendering_witness :
    occursIn (generateScoreCard (catLabel ScoreCategory.financialPlanning) 85
        (catWeight ScoreCategory.financialPlanning))
      (generateHTMLContent fpBody ("d")) ∧
    generateHTMLContent zeroScoreBody ("d") =
      generateHTMLContent
        { zeroScoreBody with scores := some (setScoreNone (scoresOf zeroScoreBody) ScoreCategory.financialPlanning) }
        ("d") :=
  ⟨(c2_score_card_rendering fpBody ("d") ScoreCategory.financialPlanning).1 85 rfl
      (by decide),
   (c2_score_card_rendering zeroScoreBody ("d") ScoreCategory.financialPlanning).2
      (Or.inr rfl)⟩

/-- C3 counterexample: when `page.setContent` fails after the browser has
been launched, the handler answers through the top-level catch without
closing the browser — refuting the claim that every reachable exit path
after launch closes the browser. -/
theorem c3_counterexample :
    (POST janeDoe envContentFail ("d")).browserLaunched = true ∧
    (POST janeDoe envContentFail ("d")).browserClosed = false :=
  ⟨rfl, rfl⟩

/-- C3 as amended: after a successful launch the browser is closed exactly
on the paths that reach the PDF stage (PDF success, PDF-failure fallback,
empty buffer); on the paths that reach the top-level catch after launch
(page-open failure, content-load failure) it is not closed. -/
theorem c3_browser_close (results : AssessmentResult) (env : BrowserEnv)
    (currentDate : String) (hv : missingStudentName results = false)
    (hl : env.launchOk = true) :
    (POST results env currentDate).browserLaunched = true ∧
    ((POST results env currentDate).browserClosed = true ↔
      (env.newPageOk = true ∧ env.setContentOk = true)) := by
  obtain ⟨lo, np, sc, pr⟩ := env
  cases lo
  · exact absurd hl (by simp)
  · cases np <;> cases sc <;> rcases pr with _ | buf <;>
      simp [POST, hv, handleValidRequest] <;> split <;> simp

/-- Witness for C3's amended theorem at a concrete input: on the PDF-failure
path the browser is launched and closed. -/
theorem c3_browser_close_witness :
    (POST janeDoe envPdfFail ("d")).browserLaunched = true ∧
    ((POST janeDoe envPdfFail ("d")).browserClosed = true ↔
      (envPdfFail.newPageOk = true ∧ envPdfFail.setContentOk = true)) :=
  c3_browser_close janeDoe envPdfFail ("d") rfl rfl

/-- C5: the score-card colour class is an exact-boundary function of the
rounded percentage — 80 is excellent, 79 and 60 good, 59 and 40 average, 39
and 0 weak — and the rendered percentage is exactly the rounded input value,
with no clamping above 100 or below 0. -/
theorem c5_score_card_boundaries :
    barClassOf (mathRound 80) = "excellent" ∧
    barClassOf (mathRound 79) = "good" ∧
    barClassOf (mathRound 60) = "good" ∧
    barClassOf (mathRound 59) = "average" ∧
    barClassOf (mathRound 40) = "average" ∧
    barClassOf (mathRound 39) = "weak" ∧
    barClassOf (mathRound 0) = "weak" ∧
    mathRound 150 = 150 ∧
    mathRound (-5) = -5 ∧
    ∀ (label : String) (score : ℚ) (weight : String),
      generateScoreCard label score weight =
        scTpl1 ++ label ++ scTpl2 ++ toString (mathRound score) ++ scTpl3
          ++ barClassOf (mathRound score) ++ scTpl4 ++ toString (mathRound score)
          ++ scTpl5 ++ weight ++ scTpl6 := by
  have h80 : mathRound 80 = 80 := by
    rw [show (80 : ℚ) = ((80 : ℤ) : ℚ) by norm_num]; exact mathRound_intCast 80
  have h79 : mathRound 79 = 79 := by
    rw [show (79 : ℚ) = ((79 : ℤ) : ℚ) by norm_num]; exact mathRound_intCast 79
  have h60 : mathRound 60 = 60 := by
    rw [show (60 : ℚ) = ((60 : ℤ) : ℚ) by norm_num]; exact mathRound_intCast 60
  have h59 : mathRound 59 = 59 := by
    rw [show (59 : ℚ) = ((59 : ℤ) : ℚ) by norm_num]; exact mathRound_intCast 59
  have h40 : mathRound 40 = 40 := by
    rw [show (40 : ℚ) = ((40 : ℤ) : ℚ) by norm_num]; exact mathRound_intCast 40
  have h39 : mathRound 39 = 39 := by
    rw [show (39 : ℚ) = ((39 : ℤ) : ℚ) by norm_num]; exact mathRound_intCast 39
  have h0 : mathRound 0 = 0 := by
    rw [show (0 : ℚ) = ((0 : ℤ) : ℚ) by norm_num]; exact mathRound_intCast 0
  have h150 : mathRound 150 = 150 := by
    rw [show (150 : ℚ) = ((150 : ℤ) : ℚ) by norm_num]; exact mathRound_intCast 150
  have hm5 : mathRound (-5) = -5 := by
    rw [show (-5 : ℚ) = ((-5 : ℤ) : ℚ) by norm_num]; exact mathRound_intCast (-5)
  refine ⟨by rw [h80]; rfl, by rw [h79]; rfl, by rw [h60]; rfl, by rw [h59]; rfl,
    by rw [h40]; rfl, by rw [h39]; rfl, by rw [h0]; rfl, h150, hm5,
    fun label score weight => rfl⟩

/-- C6: a country card at position `index` shows a match percentage of
`100 − 15·index` (100, 85, 70 for the first three positions), a flag from the
fixed country table with the globe glyph for unknown countries, and the card
builder is total — it renders for every country string. -/
theorem c6_country_cards :
    (∀ (country : String) (index : ℕ),
      generateCountryCard country index =
        ccTpl1 ++ toString (index + 1) ++ ccTpl2
          ++ ((List.lookup country countryInfo).getD ("🌍")) ++ ccTpl3 ++ country
          ++ ccTpl4 ++ toString ((100 : ℤ) - 15 * (index : ℤ)) ++ ccTpl5) ∧
    toString ((100 : ℤ) - 15 * ((0 : ℕ) : ℤ)) = "100" ∧
    toString ((100 : ℤ) - 15 * ((1 : ℕ) : ℤ)) = "85" ∧
    toString ((100 : ℤ) - 15 * ((2 : ℕ) : ℤ)) = "70" ∧
    (List.lookup ("Canada") countryInfo).getD ("🌍") = "🇨🇦" ∧
    (List.lookup ("Atlantis") countryInfo).getD ("🌍") = "🌍" := by
  refine ⟨?_, by decide, by decide, by decide, by decide, by decide⟩
  intro country index
  have : mathRound ((100 : ℚ) - (index : ℚ) * 15) = (100 : ℤ) - 15 * (index : ℤ) := by
    rw [show ((100 : ℚ) - (index : ℚ) * 15) = (((100 - 15 * (index : ℤ)) : ℤ) : ℚ) by
      push_cast; ring]
    exact mathRound_intCast _
  simp only [generateCountryCard, this]

/-- C8: the report builder is a pure function of the body and the render
date — its output factors as date-independent pieces around the two embedded
date strings, so two runs on the same input differ at most in the embedded
current-date string, and not at all once the date is held fixed. -/
theorem c8_deterministic_modulo_date (results : AssessmentResult) (currentDate : String) :
    generateHTMLContent results currentDate =
      htmlDatePre results ++ currentDate ++ htmlDateMid results
        ++ currentDate ++ tpl16 := by
  simp only [generateHTMLContent, htmlDatePre, htmlDateMid, String.append_assoc]

/-- C4: for a valid body, when the PDF render step fails the handler answers
200 with an HTML content type and attachment disposition, and the body is the
fallback document, which contains the rendered student name, overall index,
readiness level, strengths, recommendations and the literal note text. -/
theorem c4_pdf_failure_fallback (results : AssessmentResult) (env : BrowserEnv)
    (currentDate : String) (hv : missingStudentName results = false)
    (hl : env.launchOk = true) (hn : env.newPageOk = true)
    (hs : env.setContentOk = true) (hp : env.pdfResult = none) :
    (POST results env currentDate).response.status = 200 ∧
    (POST results env currentDate).response.contentType = some ("text/html") ∧
    (POST results env currentDate).response.contentDisposition =
      some ("attachment; filename=\"study-abroad-report-"
        ++ slugify (nameField results) ++ ".html\"") ∧
    (POST results env currentDate).response.body =
      RespBody.htmlBody (fallbackHtml results) ∧
    occursIn (nameField results) (fallbackHtml results) ∧
    occursIn (fallbackIndexStr results) (fallbackHtml results) ∧
    occursIn (fallbackLevelStr results) (fallbackHtml results) ∧
    occursIn (fallbackStrengthsStr results) (fallbackHtml results) ∧
    occursIn (fallbackRecommendationsStr results) (fallbackHtml results) ∧
    occursIn fallbackNote (fallbackHtml results) := by
  have hres : POST results env currentDate =
      { response := fallbackResponse results,
        browserLaunched := true, browserClosed := true } := by
    simp [POST, hv, handleValidRequest, hl, hn, hs, hp]
  rw [hres]
  refine ⟨rfl, rfl, rfl, rfl,
    ⟨fbTpl1,
     fbTpl2 ++ nameField results ++ fbTpl3 ++ fallbackIndexStr results ++ fbTpl4
       ++ fallbackLevelStr results ++ fbTpl5 ++ fallbackStrengthsStr results ++ fbTpl6
       ++ fallbackRecommendationsStr results ++ fbTpl7 ++ fallbackNote ++ fbTpl8, ?_⟩,
    ⟨fbIdxPre results, fbIdxPost results, ?_⟩,
    ⟨fbIdxPre results ++ fallbackIndexStr results ++ fbTpl4,
     fbTpl5 ++ fallbackStrengthsStr results ++ fbTpl6
       ++ fallbackRecommendationsStr results ++ fbTpl7 ++ fallbackNote ++ fbTpl8, ?_⟩,
    ⟨fbIdxPre results ++ fallbackIndexStr results ++ fbTpl4
       ++ fallbackLevelStr results ++ fbTpl5,
     fbTpl6 ++ fallbackRecommendationsStr results ++ fbTpl7 ++ fallbackNote ++ fbTpl8, ?_⟩,
    ⟨fbIdxPre results ++ fallbackIndexStr results ++ fbTpl4
       ++ fallbackLevelStr results ++ fbTpl5 ++ fallbackStrengthsStr results ++ fbTpl6,
     fbTpl7 ++ fallbackNote ++ fbTpl8, ?_⟩,
    ⟨fbIdxPre results ++ fallbackIndexStr results ++ fbTpl4
       ++ fallbackLevelStr results ++ fbTpl5 ++ fallbackStrengthsStr results ++ fbTpl6
       ++ fallbackRecommendationsStr results ++ fbTpl7,
     fbTpl8, ?_⟩⟩ <;>
    simp only [fallbackHtml, fbIdxPre, fbIdxPost, String.append_assoc]

/-- Witness for C4 at a concrete input: the PDF-failure path answers 200 with
HTML content type and the fallback document body. -/
theorem c4_pdf_failure_fallback_witness :
    (POST janeDoe envPdfFail ("d")).response.status = 200 ∧
    (POST janeDoe envPdfFail ("d")).response.contentType = some ("text/html") ∧
    (POST janeDoe envPdfFail ("d")).response.body =
      RespBody.htmlBody (fallbackHtml janeDoe) :=
  ⟨(c4_pdf_failure_fallback janeDoe envPdfFail ("d") rfl rfl rfl rfl rfl).1,
   (c4_pdf_failure_fallback janeDoe envPdfFail ("d") rfl rfl rfl rfl rfl).2.1,
   (c4_pdf_failure_fallback janeDoe envPdfFail ("d") rfl rfl rfl rfl rfl).2.2.2.1⟩

/-- C7: when the strengths, gaps or recommendations field is absent, the
report contains the corresponding literal default string in its place. -/
theorem c7_missing_field_defaults (results : AssessmentResult) (currentDate : String) :
    (results.strengths = none →
      occursIn ("No strengths identified") (generateHTMLContent results currentDate)) ∧
    (results.gaps = none →
      occursIn ("No gaps identified") (generateHTMLContent results currentDate)) ∧
    (results.recommendations = none →
      occursIn ("No recommendations provided") (generateHTMLContent results currentDate)) := by
  refine ⟨fun h => ⟨htmlHead results currentDate ++ scoresGridStr results ++ tpl11,
      tpl12 ++ gapsOf results ++ tpl13 ++ recommendationsOf results ++ tpl14
        ++ countryFitBlock (countryFitOf results) ++ tpl15 ++ currentDate ++ tpl16, ?_⟩,
    fun h => ⟨htmlHead results currentDate ++ scoresGridStr results ++ tpl11
        ++ strengthsOf results ++ tpl12,
      tpl13 ++ recommendationsOf results ++ tpl14
        ++ countryFitBlock (countryFitOf results) ++ tpl15 ++ currentDate ++ tpl16, ?_⟩,
    fun h => ⟨htmlHead results currentDate ++ scoresGridStr results ++ tpl11
        ++ strengthsOf results ++ tpl12 ++ gapsOf results ++ tpl13,
      tpl14 ++ countryFitBlock (countryFitOf results) ++ tpl15 ++ currentDate ++ tpl16, ?_⟩⟩ <;>
    simp only [generateHTMLContent, htmlHead, scoresGridStr, cardOf, getScore, catLabel,
      catWeight, strengthsOf, gapsOf, recommendationsOf, h, jsStrOr,
      String.append_assoc]

/-- Witness for C7 at a concrete input: a body with none of the three fields
renders all three default strings. -/
theorem c7_missing_field_defaults_witness :
    occursIn ("No strengths identified") (generateHTMLContent janeDoe ("d")) ∧
    occursIn ("No gaps identified") (generateHTMLContent janeDoe ("d")) ∧
    occursIn ("No recommendations provided") (generateHTMLContent janeDoe ("d")) :=
  ⟨(c7_missing_field_defaults janeDoe ("d")).1 rfl,
   (c7_missing_field_defaults janeDoe ("d")).2.1 rfl,
   (c7_missing_field_defaults janeDoe ("d")).2.2 rfl⟩

/-- C9: both download filenames are built from the slugified student name —
`psychometric-report-<slug>.pdf` on the PDF path and
`study-abroad-report-<slug>.html` on the fallback path — where slugification
replaces whitespace runs by dashes and lowercases, so `Jane Doe` becomes
`jane-doe`. -/
theorem c9_filename_slugs :
    (∀ (results : AssessmentResult) (env : BrowserEnv) (currentDate : String)
      (buf : List ℕ), missingStudentName results = false → env.launchOk = true →
      env.newPageOk = true → env.setContentOk = true → env.pdfResult = some buf →
      buf.length ≠ 0 →
      (POST results env currentDate).response.contentDisposition =
        some ("attachment; filename=\"psychometric-report-"
          ++ slugify (nameField results) ++ ".pdf\"")) ∧
    (∀ (results : AssessmentResult) (env : BrowserEnv) (currentDate : String),
      missingStudentName results = false → env.launchOk = true →
      env.newPageOk = true → env.setContentOk = true → env.pdfResult = none →
      (POST results env currentDate).response.contentDisposition =
        some ("attachment; filename=\"study-abroad-report-"
          ++ slugify (nameField results) ++ ".html\"")) ∧
    slugify ("Jane Doe") = "jane-doe" := by
  refine ⟨?_, ?_, by decide⟩
  · intro results env currentDate buf hv hl hn hs hp hb
    simp [POST, hv, handleValidRequest, hl, hn, hs, hp, hb, pdfResponse]
  · intro results env currentDate hv hl hn hs hp
    simp [POST, hv, handleValidRequest, hl, hn, hs, hp, fallbackResponse]

/-- Witness for C9 at concrete inputs: both paths produce the slugified
`jane-doe` filenames. -/
theorem c9_filename_slugs_witness :
    (POST janeDoe envPdfOk ("d")).response.contentDisposition =
      some ("attachment; filename=\"psychometric-report-"
        ++ slugify (nameField janeDoe) ++ ".pdf\"") ∧
    (POST janeDoe envPdfFail ("d")).response.contentDisposition =
      some ("attachment; filename=\"study-abroad-report-"
        ++ slugify (nameField janeDoe) ++ ".html\"") :=
  ⟨c9_filename_slugs.1 janeDoe envPdfOk ("d") [37] rfl rfl rfl rfl rfl (by decide),
   c9_filename_slugs.2.1 janeDoe envPdfFail ("d") rfl rfl rfl rfl rfl⟩

/-- C10: the full report and the fallback document default the same missing
overall-index field differently — the report interpolates the numeric
default 0 while the fallback interpolates the literal text `N/A` (also when
the field is present with value 0, which is JS-falsy) — and both documents
default a missing readiness level to `Needs Assessment`; the two documents
render these values at their respective index slots. -/
theorem c10_divergent_index_defaults (results : AssessmentResult) (currentDate : String) :
    ((results.overallIndex = none ∨ results.overallIndex = some 0) →
      jsNumToString (overallIndexOf results) = "0" ∧
      fallbackIndexStr results = "N/A") ∧
    (results.readinessLevel = none →
      readinessLevelOf results = "Needs Assessment" ∧
      fallbackLevelStr results = "Needs Assessment") ∧
    generateHTMLContent results currentDate =
      htmlIdxPre results currentDate ++ jsNumToString (overallIndexOf results)
        ++ htmlIdxPost results currentDate ∧
    fallbackHtml results = fbIdxPre results ++ fallbackIndexStr results ++ fbIdxPost results := by
  refine ⟨fun h => ?_, fun h => ?_, ?_, ?_⟩
  · rcases h with h | h <;>
      simp only [overallIndexOf, fallbackIndexStr, h] <;>
      exact ⟨by decide, by decide⟩
  · simp only [readinessLevelOf, fallbackLevelStr, h]
    exact ⟨by decide, by decide⟩
  · simp only [generateHTMLContent, htmlIdxPre, htmlIdxPost, String.append_assoc]
  · simp only [fallbackHtml, fbIdxPre, fbIdxPost, String.append_assoc]

/-- Witness for C10 at a concrete input: with the overall index and readiness
level absent, the report renders `0` and `Needs Assessment` while the
fallback renders `N/A` and `Needs Assessment`. -/
theorem c10_divergent_index_defaults_witness :
    (jsNumToString (overallIndexOf janeDoe) = "0" ∧ fallbackIndexStr janeDoe = "N/A") ∧
    (readinessLevelOf janeDoe = "Needs Assessment" ∧
      fallbackLevelStr janeDoe = "Needs Assessment") :=
  ⟨(c10_divergent_index_defaults janeDoe ("d")).1 (Or.inl rfl),
   (c10_divergent_index_defaults janeDoe ("d")).2.1 rfl⟩
